import Mathlib

/-!
Shallow embedding of `src/app.py` (driving-distance-app).

The program is a Flask app: it loads a destination catalog from JSON,
pre-caches destination coordinates by geocoding each catalog postcode
once at startup (`DEST_COORDS`), and on each POST request either reads
an uploaded spreadsheet column of origins or a single `Origin` form
field, geocodes each origin, pairs it with every cached destination
coordinate via a routing request, and renders the accumulated rows or
a top-level error.

Network effects are modelled by oracle functions: a geocode network
oracle `String → GeoOutcome` (the raw HTTP/JSON outcome of the
postcodes.io call) and a route network oracle
`Coord → Coord → RouteOutcome` (the OSRM call). `geocode` and
`get_route` translate the Python helpers over these oracles. Numbers
reported by the services are exact rationals. The request handler
itself takes the already-collapsed oracles `geo : String → Option Coord`
and `route : Coord → Coord → Option (ℚ × ℚ)` because the Python loop
only observes the helpers' return values. A traced variant records the
sequence of origin geocode calls the loop issues, which is needed to
settle claims about which geocoding attempts happen.
-/

namespace DrivingApp

/-- A latitude/longitude pair, as returned by `geocode` in `app.py`. -/
structure Coord where
  lat : ℚ
  lon : ℚ
deriving DecidableEq, Repr

/-- Raw outcome of the HTTP call inside `geocode` (`app.py` lines 28-40):
`netError` = `requests.get` raised (network error or timeout), `httpError` =
`r.raise_for_status()` raised (non-success response), `malformed` = JSON
parsing or field access raised (`r.json()`, `data["result"]["latitude"]`, ...),
`ok status lat lon` = a well-formed body with its `status` field and
`result.latitude` / `result.longitude`. A body whose `status` is not `200`
(the service's "postcode not recognized" signal) is `ok s _ _` with
`s ≠ 200`. -/
inductive GeoOutcome where
  | netError
  | httpError
  | malformed
  | ok (status : ℤ) (lat lon : ℚ)
deriving DecidableEq, Repr

/-- `geocode(postcode)` from `app.py` lines 28-40: every raised exception is
caught and becomes `None`; a parsed body with `status != 200` becomes `None`;
otherwise the latitude/longitude pair is returned. -/
def geocode (net : String → GeoOutcome) (postcode : String) : Option Coord :=
  match net postcode with
  | .netError => none
  | .httpError => none
  | .malformed => none
  | .ok status lat lon => if status ≠ 200 then none else some ⟨lat, lon⟩

/-- Raw outcome of the HTTP call inside `get_route` (`app.py` lines 42-55).
`ok routes` carries the `routes` array as (distance-in-meters,
duration-in-seconds) pairs; a body with the `routes` key missing behaves
exactly like `ok []` in the code (`data.get("routes")` is falsy in both
cases), so it is modelled as `ok []`. -/
inductive RouteOutcome where
  | netError
  | httpError
  | malformed
  | ok (routes : List (ℚ × ℚ))
deriving DecidableEq, Repr

/-- `get_route(lat1, lon1, lat2, lon2)` from `app.py` lines 42-55: every
raised exception is caught and becomes `None`; an empty (or missing)
`routes` array becomes `None`; otherwise `routes[0].distance / 1000` and
`routes[0].duration / 60` are returned. -/
def get_route (net : Coord → Coord → RouteOutcome) (o d : Coord) : Option (ℚ × ℚ) :=
  match net o d with
  | .netError => none
  | .httpError => none
  | .malformed => none
  | .ok routes =>
    match routes with
    | [] => none
    | (dist, dur) :: _ => some (dist / 1000, dur / 60)

/-- Floor of a rational, computed directly from the normalized
numerator/denominator (Euclidean division by the positive denominator). -/
def rfloor (q : ℚ) : ℤ :=
  Int.ediv q.num q.den

/-- Round a rational to the nearest integer, ties to the even neighbour.
This is the rounding CPython's `format(x, ".1f")` performs on the exact
value of its argument (correctly-rounded decimal conversion of the double;
on the rationals used in this development the double and the rational agree). -/
def roundHalfEven (q : ℚ) : ℤ :=
  if q - rfloor q < 1 / 2 then rfloor q
  else if 1 / 2 < q - rfloor q then rfloor q + 1
  else if rfloor q % 2 = 0 then rfloor q else rfloor q + 1

/-- The f-string `f"\x7bx:.1f\x7d"` used at `app.py` lines 159-160 and
185-186: one decimal digit, rounding half to even (for nonnegative values,
the only ones the app produces). -/
def format1 (q : ℚ) : String :=
  let n : ℤ := roundHalfEven (q * 10)
  if n < 0 then "-" ++ toString (-n / 10) ++ "." ++ toString (-n % 10)
  else toString (n / 10) ++ "." ++ toString (n % 10)

/-- One rendered result row (the dict appended at `app.py` lines 154-161
and 180-187). -/
structure Row where
  origin : String
  dest : String
  agency : String
  city : String
  dist : String
  time : String
deriving DecidableEq, Repr

/-- Python's `str.strip()` on the character list: drop leading and trailing
whitespace. -/
def stripChars (l : List Char) : List Char :=
  ((l.dropWhile Char.isWhitespace).reverse.dropWhile Char.isWhitespace).reverse

/-- Python's `str.strip()` (`app.py` lines 144 and 168). -/
def strip (s : String) : String :=
  ⟨stripChars s.data⟩

/-- `AGENCY_MAP.get(dest_pc, "Unknown")` / `CITY_MAP.get(dest_pc, "Unknown")`:
association-list lookup with a default. -/
def mapGet (m : List (String × String)) (k dflt : String) : String :=
  match m.lookup k with
  | some v => v
  | none => dflt

/-- The dict literal appended to `rows` (`app.py` lines 154-161). -/
def mkRow (amap cmap : List (String × String)) (origin_pc dest_pc : String)
    (dist_km time_min : ℚ) : Row :=
  { origin := origin_pc
    dest := dest_pc
    agency := mapGet amap dest_pc "Unknown"
    city := mapGet cmap dest_pc "Unknown"
    dist := format1 dist_km
    time := format1 time_min }

/-- The startup loop populating `DEST_COORDS` (`app.py` lines 60-64):
iterate the catalog postcodes in source order, geocode each once, keep
the successes. Python dicts preserve insertion order, so the resulting
association list's order is the iteration order of `DEST_COORDS.items()`. -/
def precache (geo : String → Option Coord) : List String → List (String × Coord)
  | [] => []
  | d :: rest =>
    match geo d with
    | some c => (d, c) :: precache geo rest
    | none => precache geo rest

/-- The inner destination loop (`app.py` lines 150-161): for each cached
`(dest_pc, dest_coords)` pair in cache order, call the routing service and,
on success, append a row to the accumulator. -/
def destLoop (route : Coord → Coord → Option (ℚ × ℚ)) (amap cmap : List (String × String))
    (origin_pc : String) (oc : Coord) :
    List (String × Coord) → List Row → List Row
  | [], rows => rows
  | (dest_pc, dc) :: rest, rows =>
    match route oc dc with
    | none => destLoop route amap cmap origin_pc oc rest rows
    | some (d, t) =>
        destLoop route amap cmap origin_pc oc rest
          (rows ++ [mkRow amap cmap origin_pc dest_pc d t])

/-- Accumulated state of the batch loop: the `rows` list plus the trace of
origin strings passed to `geocode` (one call per loop iteration,
`app.py` line 145). -/
structure Trace where
  rows : List Row
  geoCalls : List String
deriving DecidableEq, Repr

/-- The outer batch loop (`app.py` lines 143-161): for each origin entry,
strip whitespace, geocode the stripped string (recorded in the trace), skip
the origin when geocoding fails, otherwise run the destination loop.
Note the code strips but never tests for emptiness: `geocode` is called
even when the stripped string is `""`. -/
def originLoop (geo : String → Option Coord) (route : Coord → Coord → Option (ℚ × ℚ))
    (cache : List (String × Coord)) (amap cmap : List (String × String)) :
    List String → Trace → Trace
  | [], tr => tr
  | o :: rest, tr =>
    let origin_pc := strip o
    let tr' : Trace := { tr with geoCalls := tr.geoCalls ++ [origin_pc] }
    match geo origin_pc with
    | none => originLoop geo route cache amap cmap rest tr'
    | some oc =>
        originLoop geo route cache amap cmap rest
          { tr' with rows := destLoop route amap cmap origin_pc oc cache tr'.rows }

/-- The row sequence the batch loop accumulates for a list of origin
entries, starting from the empty `rows` list (`app.py` line 130). -/
def computeRows (geo : String → Option Coord) (route : Coord → Coord → Option (ℚ × ℚ))
    (cache : List (String × Coord)) (amap cmap : List (String × String))
    (origins : List String) : List Row :=
  (originLoop geo route cache amap cmap origins ⟨[], []⟩).rows

/-- The sequence of strings the batch loop passes to `geocode`
(`app.py` line 145), in call order. -/
def geoCallLog (geo : String → Option Coord) (route : Coord → Coord → Option (ℚ × ℚ))
    (cache : List (String × Coord)) (amap cmap : List (String × String))
    (origins : List String) : List String :=
  (originLoop geo route cache amap cmap origins ⟨[], []⟩).geoCalls

/-- The rows one origin entry contributes: empty when the stripped entry
fails to geocode, otherwise one row per cached destination with a
successful route, in cache order. -/
def perOrigin (geo : String → Option Coord) (route : Coord → Coord → Option (ℚ × ℚ))
    (cache : List (String × Coord)) (amap cmap : List (String × String))
    (o : String) : List Row :=
  match geo (strip o) with
  | none => []
  | some oc => destLoop route amap cmap (strip o) oc cache []

/-- Outcome of `pd.read_excel` on the uploaded file (`app.py` line 136):
either the parse raised (with the exception's message), or it produced a
dataframe, modelled by its column names and the values of its `origin`
column (cell entries are `none` for NaN cells, dropped by `dropna()`;
non-null cells carry their `str(...)` rendering). -/
inductive ExcelParse where
  | parseError (msg : String)
  | parsed (cols : List String) (originCol : List (Option String))
deriving DecidableEq, Repr

/-- A POST request to `/` as the handler observes it: `request.files.get("file")`
(with its `filename`) and `request.form.get("Origin")`. -/
structure PostRequest where
  file : Option (String × ExcelParse)
  originField : Option String
deriving DecidableEq, Repr

/-- What the rendered template exposes: the top-level `error` string, when
one was passed, and the `rows` list, when one was passed (`[]` otherwise). -/
structure Response where
  error : Option String
  rows : List Row
deriving DecidableEq, Repr

/-- The single-origin branch (`app.py` lines 167-191): strip the `Origin`
form field (defaulting to `""` when absent), reject an empty value with a
dedicated top-level error, reject a failed origin geocode with a dedicated
top-level error, otherwise run the destination loop over the cache and
report "No valid routes found." exactly when it produced no rows. -/
def singleOriginBranch (geo : String → Option Coord) (route : Coord → Coord → Option (ℚ × ℚ))
    (cache : List (String × Coord)) (amap cmap : List (String × String))
    (originField : Option String) : Response :=
  let origin_pc := strip (originField.getD "")
  if origin_pc = "" then
    { error := some "Please enter an origin postcode or upload a file.", rows := [] }
  else
    match geo origin_pc with
    | none => { error := some "Invalid origin postcode.", rows := [] }
    | some oc =>
      let rows := destLoop route amap cmap origin_pc oc cache []
      if rows = [] then { error := some "No valid routes found.", rows := [] }
      else { error := none, rows := rows }

/-- The file-upload branch (`app.py` lines 135-165): a parse failure or a
missing `origin` column is a dedicated top-level error; otherwise the batch
loop runs over the non-null column entries and "No valid routes found." is
reported exactly when it accumulated no rows. -/
def fileBranch (geo : String → Option Coord) (route : Coord → Coord → Option (ℚ × ℚ))
    (cache : List (String × Coord)) (amap cmap : List (String × String))
    (excel : ExcelParse) : Response :=
  match excel with
  | .parseError msg => { error := some ("Excel read error: " ++ msg), rows := [] }
  | .parsed cols originCol =>
    if "origin" ∈ cols then
      let rows := computeRows geo route cache amap cmap (originCol.filterMap id)
      if rows = [] then { error := some "No valid routes found.", rows := [] }
      else { error := none, rows := rows }
    else { error := some "Excel must contain column named 'origin'", rows := [] }

/-- The POST half of `index` (`app.py` lines 128-194): the file branch runs
exactly when a file was uploaded with a non-empty filename
(`if file and file.filename != ""`), and every path through it returns;
otherwise the single-origin branch runs. The surrounding
`try/except` never fires in this model because no modelled operation
raises. -/
def index_post (geo : String → Option Coord) (route : Coord → Coord → Option (ℚ × ℚ))
    (cache : List (String × Coord)) (amap cmap : List (String × String))
    (req : PostRequest) : Response :=
  match req.file with
  | some (fname, excel) =>
    if fname ≠ "" then fileBranch geo route cache amap cmap excel
    else singleOriginBranch geo route cache amap cmap req.originField
  | none => singleOriginBranch geo route cache amap cmap req.originField

/-! ### Structural lemmas about the loops -/

theorem destLoop_acc (route : Coord → Coord → Option (ℚ × ℚ)) (amap cmap : List (String × String))
    (opc : String) (oc : Coord) (cache : List (String × Coord)) (acc : List Row) :
    destLoop route amap cmap opc oc cache acc = acc ++ destLoop route amap cmap opc oc cache [] := by
  induction cache generalizing acc with
  | nil => simp [destLoop]
  | cons hd tl ih =>
    obtain ⟨dpc, dc⟩ := hd
    cases h : route oc dc with
    | none => simp only [destLoop, h]; exact ih acc
    | some dt =>
      obtain ⟨d, t⟩ := dt
      simp only [destLoop, h]
      rw [ih (acc ++ [mkRow amap cmap opc dpc d t])]
      simp only [List.nil_append]
      rw [ih [mkRow amap cmap opc dpc d t]]
      simp

theorem originLoop_spec (geo : String → Option Coord) (route : Coord → Coord → Option (ℚ × ℚ))
    (cache : List (String × Coord)) (amap cmap : List (String × String))
    (origins : List String) (tr : Trace) :
    originLoop geo route cache amap cmap origins tr =
      ⟨tr.rows ++ origins.flatMap (perOrigin geo route cache amap cmap),
        tr.geoCalls ++ origins.map (fun o => strip o)⟩ := by
  induction origins generalizing tr with
  | nil => simp [originLoop]
  | cons o rest ih =>
    cases h : geo (strip o) with
    | none =>
      simp only [originLoop, h, ih, List.flatMap_cons, List.map_cons, perOrigin]
      simp
    | some oc =>
      simp only [originLoop, h, ih, List.flatMap_cons, List.map_cons, perOrigin]
      rw [destLoop_acc]
      simp

theorem computeRows_eq_flatMap (geo : String → Option Coord)
    (route : Coord → Coord → Option (ℚ × ℚ)) (cache : List (String × Coord))
    (amap cmap : List (String × String)) (origins : List String) :
    computeRows geo route cache amap cmap origins
      = origins.flatMap (perOrigin geo route cache amap cmap) := by
  simp [computeRows, originLoop_spec]

theorem geoCallLog_eq_map (geo : String → Option Coord)
    (route : Coord → Coord → Option (ℚ × ℚ)) (cache : List (String × Coord))
    (amap cmap : List (String × String)) (origins : List String) :
    geoCallLog geo route cache amap cmap origins = origins.map (fun o => strip o) := by
  simp [geoCallLog, originLoop_spec]

theorem computeRows_append (geo : String → Option Coord)
    (route : Coord → Coord → Option (ℚ × ℚ)) (cache : List (String × Coord))
    (amap cmap : List (String × String)) (l₁ l₂ : List String) :
    computeRows geo route cache amap cmap (l₁ ++ l₂)
      = computeRows geo route cache amap cmap l₁ ++ computeRows geo route cache amap cmap l₂ := by
  simp [computeRows_eq_flatMap]

theorem destLoop_mem (route : Coord → Coord → Option (ℚ × ℚ)) (amap cmap : List (String × String))
    (opc : String) (oc : Coord) (cache : List (String × Coord)) (r : Row)
    (hr : r ∈ destLoop route amap cmap opc oc cache []) :
    ∃ dpc dc d t, (dpc, dc) ∈ cache ∧ route oc dc = some (d, t)
      ∧ r = mkRow amap cmap opc dpc d t := by
  induction cache with
  | nil => simp [destLoop] at hr
  | cons hd tl ih =>
    obtain ⟨dpc, dc⟩ := hd
    cases h : route oc dc with
    | none =>
      simp only [destLoop, h] at hr
      obtain ⟨dpc', dc', d', t', hmem, hroute, hre⟩ := ih hr
      exact ⟨dpc', dc', d', t', List.mem_cons_of_mem _ hmem, hroute, hre⟩
    | some dt =>
      obtain ⟨d, t⟩ := dt
      simp only [destLoop, h] at hr
      rw [destLoop_acc] at hr
      rcases List.mem_append.1 hr with hl | hl
      · exact ⟨dpc, dc, d, t, List.mem_cons_self _ _, h, by simpa using hl⟩
      · obtain ⟨dpc', dc', d', t', hmem, hroute, hre⟩ := ih hl
        exact ⟨dpc', dc', d', t', List.mem_cons_of_mem _ hmem, hroute, hre⟩

theorem destLoop_map_dest (route : Coord → Coord → Option (ℚ × ℚ))
    (amap cmap : List (String × String)) (opc : String) (oc : Coord)
    (cache : List (String × Coord)) :
    ((destLoop route amap cmap opc oc cache []).map Row.dest).Sublist (cache.map Prod.fst) := by
  induction cache with
  | nil => simp [destLoop]
  | cons hd tl ih =>
    obtain ⟨dpc, dc⟩ := hd
    cases h : route oc dc with
    | none =>
      simp only [destLoop, h, List.map_cons]
      exact ih.cons _
    | some dt =>
      obtain ⟨d, t⟩ := dt
      simp only [destLoop, h, List.map_cons]
      rw [destLoop_acc]
      simpa [mkRow] using ih.cons₂ dpc

theorem precache_fst_sublist (geo : String → Option Coord) (dests : List String) :
    ((precache geo dests).map Prod.fst).Sublist dests := by
  induction dests with
  | nil => simp [precache]
  | cons d rest ih =>
    cases h : geo d with
    | none =>
      simp only [precache, h]
      exact ih.cons _
    | some c =>
      simp only [precache, h, List.map_cons]
      exact ih.cons₂ d

/-! ### Claims -/

/-- Claim C3: every origin geocoding failure (network error, non-success
response, malformed payload, or a body whose status marks the postcode as
not recognized) maps to an absent coordinate with no exception escaping,
the batch loop emits zero rows for such an origin, and the remaining
origins of the batch are processed unchanged (the model is a total
function, so no exception can propagate). -/
theorem C3_failed_origin_emits_no_rows (net : String → GeoOutcome)
    (route : Coord → Coord → Option (ℚ × ℚ)) (cache : List (String × Coord))
    (amap cmap : List (String × String)) (pre post : List String) (o : String)
    (h : net (strip o) = .netError ∨ net (strip o) = .httpError ∨ net (strip o) = .malformed
       ∨ ∃ s lat lon, s ≠ 200 ∧ net (strip o) = .ok s lat lon) :
    geocode net (strip o) = none ∧
    perOrigin (geocode net) route cache amap cmap o = [] ∧
    computeRows (geocode net) route cache amap cmap (pre ++ o :: post)
      = computeRows (geocode net) route cache amap cmap pre
        ++ computeRows (geocode net) route cache amap cmap post := by
  have hnone : geocode net (strip o) = none := by
    rcases h with h | h | h | ⟨s, lat, lon, hs, h⟩ <;> simp [geocode, h]
    intro he
    exact absurd he hs
  refine ⟨hnone, by simp [perOrigin, hnone], ?_⟩
  rw [computeRows_eq_flatMap, computeRows_eq_flatMap, computeRows_eq_flatMap]
  simp [perOrigin, hnone]

/-- Witness for C3 at a concrete failing origin. -/
theorem C3_failed_origin_emits_no_rows_witness :
    geocode (fun _ => .netError) (strip " BAD ") = none ∧
    perOrigin (geocode (fun _ => .netError)) (fun _ _ => some (1, 1)) [("D", ⟨0, 0⟩)] [] [] " BAD " = [] ∧
    computeRows (geocode (fun _ => .netError)) (fun _ _ => some (1, 1)) [("D", ⟨0, 0⟩)] [] []
        (["A"] ++ " BAD " :: ["B"])
      = computeRows (geocode (fun _ => .netError)) (fun _ _ => some (1, 1)) [("D", ⟨0, 0⟩)] [] [] ["A"]
        ++ computeRows (geocode (fun _ => .netError)) (fun _ _ => some (1, 1)) [("D", ⟨0, 0⟩)] [] [] ["B"] :=
  C3_failed_origin_emits_no_rows (fun _ => .netError) (fun _ _ => some (1, 1)) [("D", ⟨0, 0⟩)] [] []
    ["A"] ["B"] " BAD " (Or.inl rfl)

/-- Claim C4: a successful routing response yields `routes[0].distance / 1000`
kilometers and `routes[0].duration / 60` minutes, and an empty `routes`
array yields an absent result. -/
theorem C4_route_unit_conversion (netOk netEmpty : Coord → Coord → RouteOutcome)
    (o d : Coord) (dist dur : ℚ) (rest : List (ℚ × ℚ))
    (hok : netOk o d = .ok ((dist, dur) :: rest)) (hempty : netEmpty o d = .ok []) :
    get_route netOk o d = some (dist / 1000, dur / 60) ∧ get_route netEmpty o d = none := by
  constructor
  · simp [get_route, hok]
  · simp [get_route, hempty]

/-- Witness for C4 at the concrete response of end-to-end scenario 1
(15000 meters, 1230 seconds). -/
theorem C4_route_unit_conversion_witness :
    get_route (fun _ _ => .ok [(15000, 1230)]) ⟨0, 0⟩ ⟨1, 1⟩ = some (15000 / 1000, 1230 / 60) ∧
    get_route (fun _ _ => .ok []) ⟨0, 0⟩ ⟨1, 1⟩ = none :=
  C4_route_unit_conversion (fun _ _ => .ok [(15000, 1230)]) (fun _ _ => .ok [])
    ⟨0, 0⟩ ⟨1, 1⟩ 15000 1230 [] rfl rfl

/-- Claim C9: two computations of the row sequence with identical origins,
identical cache state and identical deterministic geocoding and routing
oracles yield identical row sequences, order and field values included;
the loop has no other state. -/
theorem C9_idempotent (geo₁ geo₂ : String → Option Coord)
    (route₁ route₂ : Coord → Coord → Option (ℚ × ℚ)) (cache₁ cache₂ : List (String × Coord))
    (amap₁ amap₂ cmap₁ cmap₂ : List (String × String)) (origins₁ origins₂ : List String)
    (hg : geo₁ = geo₂) (hr : route₁ = route₂) (hc : cache₁ = cache₂)
    (ha : amap₁ = amap₂) (hm : cmap₁ = cmap₂) (ho : origins₁ = origins₂) :
    computeRows geo₁ route₁ cache₁ amap₁ cmap₁ origins₁
      = computeRows geo₂ route₂ cache₂ amap₂ cmap₂ origins₂ := by
  subst hg hr hc ha hm ho
  rfl

/-- Witness for C9 at concrete inputs. -/
theorem C9_idempotent_witness :
    computeRows (fun _ => some ⟨0, 0⟩) (fun _ _ => some (1, 2)) [("D", ⟨1, 1⟩)] [("D", "A")]
        [("D", "C")] ["O"]
      = computeRows (fun _ => some ⟨0, 0⟩) (fun _ _ => some (1, 2)) [("D", ⟨1, 1⟩)] [("D", "A")]
        [("D", "C")] ["O"] :=
  C9_idempotent (fun _ => some ⟨0, 0⟩) (fun _ => some ⟨0, 0⟩) (fun _ _ => some (1, 2))
    (fun _ _ => some (1, 2)) [("D", ⟨1, 1⟩)] [("D", ⟨1, 1⟩)] [("D", "A")] [("D", "A")]
    [("D", "C")] [("D", "C")] ["O"] ["O"] rfl rfl rfl rfl rfl rfl

/-- Claim C10: a POST whose uploaded file has a non-empty filename is
processed entirely by the file branch: the response equals the file
branch's response (which never reads the `Origin` field), so the response
is independent of the `Origin` field and the single-origin branch is
never reached. -/
theorem C10_file_branch_exclusive (geo : String → Option Coord)
    (route : Coord → Coord → Option (ℚ × ℚ)) (cache : List (String × Coord))
    (amap cmap : List (String × String)) (fname : String) (excel : ExcelParse)
    (of₁ of₂ : Option String) (h : fname ≠ "") :
    index_post geo route cache amap cmap ⟨some (fname, excel), of₁⟩
      = fileBranch geo route cache amap cmap excel ∧
    index_post geo route cache amap cmap ⟨some (fname, excel), of₁⟩
      = index_post geo route cache amap cmap ⟨some (fname, excel), of₂⟩ := by
  constructor
  · simp [index_post, h]
  · simp [index_post, h]

/-- Witness for C10: with a non-empty filename, two requests that differ
only in the `Origin` field give the file branch's response. -/
theorem C10_file_branch_exclusive_witness :
    index_post (fun _ => none) (fun _ _ => none) [] [] []
        ⟨some ("f.xlsx", .parseError "boom"), some "IGNORED"⟩
      = fileBranch (fun _ => none) (fun _ _ => none) [] [] [] (.parseError "boom") ∧
    index_post (fun _ => none) (fun _ _ => none) [] [] []
        ⟨some ("f.xlsx", .parseError "boom"), some "IGNORED"⟩
      = index_post (fun _ => none) (fun _ _ => none) [] [] []
        ⟨some ("f.xlsx", .parseError "boom"), none⟩ :=
  C10_file_branch_exclusive (fun _ => none) (fun _ _ => none) [] [] [] "f.xlsx"
    (.parseError "boom") (some "IGNORED") none (by decide)

/-- Claim C6: the output row sequence groups by origin in input order
(it is the concatenation, origin by origin, of each origin's rows), and
within one origin's group the destinations appear in catalog (source)
order: the group's destination sequence is a sublist of the catalog
postcode list whenever the cache was built by the startup pre-cache loop
over that catalog. -/
theorem C6_output_ordering (geo0 geo : String → Option Coord)
    (route : Coord → Coord → Option (ℚ × ℚ)) (amap cmap : List (String × String))
    (dests origins : List String) :
    computeRows geo route (precache geo0 dests) amap cmap origins
      = origins.flatMap (perOrigin geo route (precache geo0 dests) amap cmap) ∧
    ∀ o : String,
      ((perOrigin geo route (precache geo0 dests) amap cmap o).map Row.dest).Sublist dests := by
  refine ⟨computeRows_eq_flatMap _ _ _ _ _ _, fun o => ?_⟩
  cases h : geo (strip o) with
  | none => simp [perOrigin, h]
  | some oc =>
    have hsub := (destLoop_map_dest route amap cmap (strip o) oc (precache geo0 dests)).trans
      (precache_fst_sublist geo0 dests)
    simpa [perOrigin, h] using hsub

unseal Rat.mul Rat.inv Rat.add Rat.sub in
/-- Claim C5: the concrete formatting facts 12.34 → "12.3" and
45.06 → "45.1" hold for the model of the one-decimal f-string, and every
row the batch loop emits is a `mkRow`, whose `dist` and `time` fields are
`format1` of the computed kilometre and minute values — a single rounding
rule for all rows. -/
theorem C5_one_decimal_formatting (geo : String → Option Coord)
    (route : Coord → Coord → Option (ℚ × ℚ)) (cache : List (String × Coord))
    (amap cmap : List (String × String)) (origins : List String) (r : Row)
    (hr : r ∈ computeRows geo route cache amap cmap origins) :
    format1 (1234 / 100 : ℚ) = "12.3" ∧ format1 (4506 / 100 : ℚ) = "45.1" ∧
    ∃ opc dpc dk tm, r = mkRow amap cmap opc dpc dk tm
      ∧ r.dist = format1 dk ∧ r.time = format1 tm := by
  refine ⟨by decide, by decide, ?_⟩
  rw [computeRows_eq_flatMap] at hr
  obtain ⟨o, _, hro⟩ := List.mem_flatMap.1 hr
  cases h : geo (strip o) with
  | none => simp [perOrigin, h] at hro
  | some oc =>
    simp only [perOrigin, h] at hro
    obtain ⟨dpc, dc, dk, tm, _, _, hre⟩ := destLoop_mem route amap cmap (strip o) oc cache r hro
    exact ⟨strip o, dpc, dk, tm, hre, by rw [hre]; rfl, by rw [hre]; rfl⟩

unseal Rat.mul Rat.inv Rat.add Rat.sub in
/-- Witness for C5 at a request that emits one concrete row with raw
distance 12.34 km and raw duration 45.06 min. -/
theorem C5_one_decimal_formatting_witness :
    format1 (1234 / 100 : ℚ) = "12.3" ∧ format1 (4506 / 100 : ℚ) = "45.1" ∧
    ∃ opc dpc dk tm,
      mkRow [("D", "A")] [("D", "C")] "O" "D" (1234 / 100) (4506 / 100)
          = mkRow [("D", "A")] [("D", "C")] opc dpc dk tm
        ∧ (mkRow [("D", "A")] [("D", "C")] "O" "D" (1234 / 100) (4506 / 100)).dist = format1 dk
        ∧ (mkRow [("D", "A")] [("D", "C")] "O" "D" (1234 / 100) (4506 / 100)).time = format1 tm :=
  C5_one_decimal_formatting (fun _ => some ⟨0, 0⟩) (fun _ _ => some (1234 / 100, 4506 / 100))
    [("D", ⟨1, 1⟩)] [("D", "A")] [("D", "C")] ["O"]
    (mkRow [("D", "A")] [("D", "C")] "O" "D" (1234 / 100) (4506 / 100)) (by decide)

/-- Claim C1, counterexample: catalog `["D1"]`, whose startup geocoding
failed, so the cache is empty; at request time geocoding succeeds for
every postcode (so the claimed fallback for "D1" would succeed) and
routing succeeds; yet the loop emits no row at all and its only geocode
call is for the origin — no fallback attempt for "D1" ever happens,
because the request loop iterates `DEST_COORDS.items()` only. -/
theorem C1_counterexample :
    precache (fun _ => none) ["D1"] = [] ∧
    (fun _ => some (⟨0, 0⟩ : Coord)) "D1" = some ⟨0, 0⟩ ∧
    (fun _ _ => some ((1 : ℚ), (1 : ℚ))) (⟨0, 0⟩ : Coord) (⟨0, 0⟩ : Coord) = some (1, 1) ∧
    computeRows (fun _ => some ⟨0, 0⟩) (fun _ _ => some (1, 1))
        (precache (fun _ => none) ["D1"]) [] [] ["O1"] = [] ∧
    geoCallLog (fun _ => some ⟨0, 0⟩) (fun _ _ => some (1, 1))
        (precache (fun _ => none) ["D1"]) [] [] ["O1"] = ["O1"] := by
  refine ⟨rfl, rfl, rfl, ?_, ?_⟩ <;> decide

/-- Claim C1 as amended: a destination whose coordinate is absent from the
cache is silently skipped for every origin — the request-time batch loop
iterates only the cached destinations, never issues a fallback geocode
(its geocode calls are exactly one per origin entry, on the stripped
value), and every emitted row's destination postcode comes from the
cache. -/
theorem C1_amended (geo : String → Option Coord) (route : Coord → Coord → Option (ℚ × ℚ))
    (cache : List (String × Coord)) (amap cmap : List (String × String))
    (origins : List String) (r : Row)
    (hr : r ∈ computeRows geo route cache amap cmap origins) :
    geoCallLog geo route cache amap cmap origins = origins.map (fun o => strip o) ∧
    r.dest ∈ cache.map Prod.fst := by
  refine ⟨geoCallLog_eq_map geo route cache amap cmap origins, ?_⟩
  rw [computeRows_eq_flatMap] at hr
  obtain ⟨o, _, hro⟩ := List.mem_flatMap.1 hr
  cases h : geo (strip o) with
  | none => simp [perOrigin, h] at hro
  | some oc =>
    simp only [perOrigin, h] at hro
    obtain ⟨dpc, dc, dk, tm, hmem, _, hre⟩ := destLoop_mem route amap cmap (strip o) oc cache r hro
    subst hre
    simpa [mkRow] using List.mem_map_of_mem Prod.fst hmem

unseal Rat.mul Rat.inv Rat.add Rat.sub in
/-- Witness for the amended C1 at a request emitting one concrete row. -/
theorem C1_amended_witness :
    geoCallLog (fun _ => some ⟨0, 0⟩) (fun _ _ => some (1, 1)) [("D", ⟨1, 1⟩)] [] [] [" O1 "]
      = [" O1 "].map (fun o => strip o) ∧
    (mkRow [] [] "O1" "D" 1 1).dest ∈ ([("D", (⟨1, 1⟩ : Coord))].map Prod.fst) :=
  C1_amended (fun _ => some ⟨0, 0⟩) (fun _ _ => some (1, 1)) [("D", ⟨1, 1⟩)] [] [] [" O1 "]
    (mkRow [] [] "O1" "D" 1 1) (by decide)

/-- Claim C2, counterexample: a geocoding failure for the single submitted
origin produces its own dedicated top-level error "Invalid origin
postcode." (`app.py` line 174), not the "no valid routes" error — so a
per-item geocode failure is surfaced individually. -/
theorem C2_counterexample :
    (index_post (fun _ => none) (fun _ _ => none) [] [] [] ⟨none, some "AB1 2CD"⟩).error
      = some "Invalid origin postcode." ∧
    (index_post (fun _ => none) (fun _ _ => none) [] [] [] ⟨none, some "AB1 2CD"⟩).error
      ≠ some "No valid routes found." := by
  constructor <;> decide

/-- Claim C2 as amended: in the file-upload branch, per-item failures are
never surfaced individually — the branch's only failure-induced top-level
error is "No valid routes found.", reported exactly when the accumulated
row sequence is empty; in the single-origin branch, however, a geocoding
failure of the submitted origin produces the dedicated error "Invalid
origin postcode.". -/
theorem C2_amended (geo : String → Option Coord) (route : Coord → Coord → Option (ℚ × ℚ))
    (cache : List (String × Coord)) (amap cmap : List (String × String))
    (cols : List String) (originCol : List (Option String)) (o : String)
    (hcol : "origin" ∈ cols) (ho : strip o ≠ "") (hgeo : geo (strip o) = none) :
    ((fileBranch geo route cache amap cmap (.parsed cols originCol)).error
        = some "No valid routes found."
      ↔ (fileBranch geo route cache amap cmap (.parsed cols originCol)).rows = []) ∧
    ((fileBranch geo route cache amap cmap (.parsed cols originCol)).error = none
      ∨ (fileBranch geo route cache amap cmap (.parsed cols originCol)).error
        = some "No valid routes found.") ∧
    index_post geo route cache amap cmap ⟨none, some o⟩
      = { error := some "Invalid origin postcode.", rows := [] } := by
  by_cases hrows : computeRows geo route cache amap cmap (originCol.filterMap id) = []
  · refine ⟨?_, ?_, ?_⟩
    · simp [fileBranch, hcol, hrows]
    · simp [fileBranch, hcol, hrows]
    · simp [index_post, singleOriginBranch, ho, hgeo]
  · refine ⟨?_, ?_, ?_⟩
    · simp [fileBranch, hcol, hrows]
    · simp [fileBranch, hcol, hrows]
    · simp [index_post, singleOriginBranch, ho, hgeo]

/-- Witness for the amended C2 at concrete inputs (empty batch result and
a failing single origin). -/
theorem C2_amended_witness :
    ((fileBranch (fun _ => none) (fun _ _ => none) [] [] [] (.parsed ["origin"] [])).error
        = some "No valid routes found."
      ↔ (fileBranch (fun _ => none) (fun _ _ => none) [] [] [] (.parsed ["origin"] [])).rows = []) ∧
    ((fileBranch (fun _ => none) (fun _ _ => none) [] [] [] (.parsed ["origin"] [])).error = none
      ∨ (fileBranch (fun _ => none) (fun _ _ => none) [] [] [] (.parsed ["origin"] [])).error
        = some "No valid routes found.") ∧
    index_post (fun _ => none) (fun _ _ => none) [] [] [] ⟨none, some "X"⟩
      = { error := some "Invalid origin postcode.", rows := [] } :=
  C2_amended (fun _ => none) (fun _ _ => none) [] [] [] ["origin"] [] "X"
    (by decide) (by decide) rfl

/-- Claim C7, counterexample: with neither file nor `Origin` field, the
top-level error message the handler returns is "Please enter an origin
postcode or upload a file.", not the claimed "Enter an origin or upload
a file.". -/
theorem C7_counterexample :
    (index_post (fun _ => none) (fun _ _ => none) [] [] [] ⟨none, none⟩).error
      = some "Please enter an origin postcode or upload a file." ∧
    (index_post (fun _ => none) (fun _ _ => none) [] [] [] ⟨none, none⟩).error
      ≠ some "Enter an origin or upload a file." := by
  constructor <;> decide

/-- Claim C7 as amended: for every POST in which the file field is absent
(or carries an empty filename) and the `Origin` field is absent or empty
after stripping, the response is the top-level error "Please enter an
origin postcode or upload a file." with zero rows. -/
theorem C7_amended (geo : String → Option Coord) (route : Coord → Coord → Option (ℚ × ℚ))
    (cache : List (String × Coord)) (amap cmap : List (String × String)) (req : PostRequest)
    (hfile : req.file = none ∨ ∃ ex, req.file = some ("", ex))
    (horigin : strip (req.originField.getD "") = "") :
    index_post geo route cache amap cmap req
      = { error := some "Please enter an origin postcode or upload a file.", rows := [] } := by
  obtain ⟨f, o⟩ := req
  rcases hfile with hf | ⟨ex, hf⟩ <;> subst hf <;>
    simp [index_post, singleOriginBranch, horigin]

/-- Witness for the amended C7 at the empty POST. -/
theorem C7_amended_witness :
    index_post (fun _ => none) (fun _ _ => none) [] [] [] ⟨none, none⟩
      = { error := some "Please enter an origin postcode or upload a file.", rows := [] } :=
  C7_amended (fun _ => none) (fun _ _ => none) [] [] [] ⟨none, none⟩ (Or.inl rfl) (by decide)

unseal Rat.mul Rat.inv Rat.add Rat.sub in
/-- Claim C8, counterexample: for a spreadsheet entry that is empty after
trimming, the batch loop does not skip before geocoding: it issues a
geocode call with the empty string (the call log is `[""]`, refuting "no
geocoding call is issued for it"), and if that call returned a
coordinate the loop would even emit rows for the empty origin. -/
theorem C8_counterexample :
    geoCallLog (fun _ => some ⟨0, 0⟩) (fun _ _ => some (1, 1)) [("D", ⟨1, 1⟩)] [] [] ["  "]
      = [""] ∧
    computeRows (fun _ => some ⟨0, 0⟩) (fun _ _ => some (1, 1)) [("D", ⟨1, 1⟩)] [] [] ["  "]
      = [mkRow [] [] "" "D" 1 1] := by
  constructor <;> decide

/-- Claim C8 as amended: an entry that is empty after trimming is not
specially skipped — the loop issues a geocode call for the empty string;
when that call returns absent (as the real service does for an empty
postcode), the origin contributes zero rows, no error is reported, and
the rest of the batch is processed unchanged. -/
theorem C8_amended (geo : String → Option Coord) (route : Coord → Coord → Option (ℚ × ℚ))
    (cache : List (String × Coord)) (amap cmap : List (String × String))
    (o : String) (pre post : List String)
    (ho : strip o = "") (hgeo : geo "" = none) :
    geoCallLog geo route cache amap cmap (pre ++ o :: post)
      = pre.map (fun x => strip x) ++ "" :: post.map (fun x => strip x) ∧
    perOrigin geo route cache amap cmap o = [] ∧
    computeRows geo route cache amap cmap (pre ++ o :: post)
      = computeRows geo route cache amap cmap pre
        ++ computeRows geo route cache amap cmap post := by
  have hnone : geo (strip o) = none := by rw [ho]; exact hgeo
  refine ⟨?_, by simp [perOrigin, hnone], ?_⟩
  · rw [geoCallLog_eq_map]
    simp [ho]
  · rw [computeRows_eq_flatMap, computeRows_eq_flatMap, computeRows_eq_flatMap]
    simp [perOrigin, hnone]

/-- Witness for the amended C8 at a batch with a blank entry between two
origins. -/
theorem C8_amended_witness :
    geoCallLog (fun _ => none) (fun _ _ => none) [] [] [] (["A"] ++ "  " :: ["B"])
      = ["A"].map (fun x => strip x) ++ "" :: ["B"].map (fun x => strip x) ∧
    perOrigin (fun _ => none) (fun _ _ => none) [] [] [] "  " = [] ∧
    computeRows (fun _ => none) (fun _ _ => none) [] [] [] (["A"] ++ "  " :: ["B"])
      = computeRows (fun _ => none) (fun _ _ => none) [] [] [] ["A"]
        ++ computeRows (fun _ => none) (fun _ _ => none) [] [] [] ["B"] :=
  C8_amended (fun _ => none) (fun _ _ => none) [] [] [] "  " ["A"] ["B"] (by decide) rfl

end DrivingApp
